import Mathlib

/-
Shallow embedding of the study-tracker backend (src/main.py, src/models.py,
src/schemas.py, src/database.py).

The persistent store is SQLite (src/database.py): every table declares a
primary-key column `id`, and SQLite enforces primary-key uniqueness, so a
flush that INSERTs a row whose id already exists raises IntegrityError and
the transaction is not committed.  Foreign keys are NOT enforced (SQLite
leaves the foreign-key pragma off and the models configure no ON DELETE
action), so dangling references are allowed.  The session is created with
autocommit=False, autoflush=False (src/database.py line 19): queries issued
before `commit` do not see rows merely added to the session.

Float columns (`total_study_hours`, `total_target_hours`, `scheduled_hours`)
are stored and echoed verbatim, never computed with, so they are modelled as
exact rationals; JSON columns (`details`, `schedule`) are opaque payloads,
modelled as strings.

Each endpoint is a function from the committed database state (plus the
authenticated caller id and the parsed request payload) to the pair of the
committed state after the request and the HTTP outcome.  An uncaught
exception inside a handler (an IntegrityError raised by `commit`, or a
pydantic ValidationError raised while building the response) surfaces as an
HTTP 500 Internal Server Error; when it happens before `commit`, the
transaction is rolled back when the session closes and the state is
unchanged, while an exception after `commit` leaves the committed state in
place.
-/

namespace StudyTracker

/-- models.User (src/models.py lines 5-12). -/
structure UserRow where
  id : Nat
  email : String
  hashed_password : String
deriving DecidableEq, Repr

/-- models.Goal (src/models.py lines 14-22): string primary key `id`,
title, type tag, opaque JSON details, integer owner_id. -/
structure GoalRow where
  id : String
  title : String
  type : String
  details : String
  owner_id : Nat
deriving DecidableEq, Repr

/-- models.Subject (src/models.py lines 24-38). -/
structure SubjectRow where
  id : String
  goal_id : String
  name : String
  color : String
  tracking_mode : String
  schedule : Option String
  total_study_hours : Rat
  total_target_hours : Option Rat
  owner_id : Nat
deriving DecidableEq, Repr

/-- models.Chapter (src/models.py lines 40-50). -/
structure ChapterRow where
  id : String
  subject_id : String
  name : String
  target_date : String
  target_time : Option String
  estimated_duration : Option String
  completed : Bool
deriving DecidableEq, Repr

/-- models.Notification (src/models.py lines 52-64). -/
structure NotificationRow where
  id : String
  subject_id : String
  subject_name : String
  type : String
  scheduled_hours : Rat
  scheduled_time : String
  scheduled_date : String
  status : String
  read : Bool
  timestamp : Int
  owner_id : Nat
deriving DecidableEq, Repr

/-- The committed database state: one list of rows per table, in insertion
order. -/
structure DB where
  users : List UserRow
  goals : List GoalRow
  subjects : List SubjectRow
  chapters : List ChapterRow
  notifications : List NotificationRow
deriving DecidableEq, Repr

/-- An HTTP error outcome: status code, response detail, and whether a
WWW-Authenticate Bearer header is attached. -/
structure HTTPError where
  status : Nat
  detail : String
  www_authenticate : Bool
deriving DecidableEq, Repr

/-- schemas.UserCreate request body (src/schemas.py lines 8-9): email and
password only. -/
structure UserCreate where
  email : String
  password : String
deriving DecidableEq, Repr

/-- schemas.GoalCreate request body (src/schemas.py lines 24-31): id, title,
type, details.  It carries no owner field. -/
structure GoalCreate where
  id : String
  title : String
  type : String
  details : String
deriving DecidableEq, Repr

/-- schemas.SubjectCreate request body (src/schemas.py lines 39-50).  It
carries no owner field. -/
structure SubjectCreate where
  id : String
  goalId : String
  name : String
  color : String
  trackingMode : String
  schedule : Option String
  totalStudyHours : Rat
  totalTargetHours : Option Rat
deriving DecidableEq, Repr

/-- schemas.NotificationCreate request body (src/schemas.py lines 58-71).
It carries no owner field. -/
structure NotificationCreate where
  id : String
  subjectId : String
  subjectName : String
  type : String
  scheduledHours : Rat
  scheduledTime : String
  scheduledDate : String
  status : String
  read : Bool
  timestamp : Int
deriving DecidableEq, Repr

/-- schemas.User response model (src/schemas.py lines 11-14). -/
structure UserOut where
  id : Nat
  email : String
deriving DecidableEq, Repr

/-- schemas.Goal response model (src/schemas.py lines 33-36): the base
fields plus owner_id. -/
structure GoalOut where
  id : String
  title : String
  type : String
  details : String
  owner_id : Nat
deriving DecidableEq, Repr

/-- schemas.Subject response model (src/schemas.py lines 52-55): the base
fields plus the required field `owner_id : int`. -/
structure SubjectOut where
  id : String
  goalId : String
  name : String
  color : String
  trackingMode : String
  schedule : Option String
  totalStudyHours : Rat
  totalTargetHours : Option Rat
  owner_id : Nat
deriving DecidableEq, Repr

/-- schemas.Notification response model (src/schemas.py lines 73-76): the
base fields plus the required field `owner_id : int`. -/
structure NotificationOut where
  id : String
  subjectId : String
  subjectName : String
  type : String
  scheduledHours : Rat
  scheduledTime : String
  scheduledDate : String
  status : String
  read : Bool
  timestamp : Int
  owner_id : Nat
deriving DecidableEq, Repr

deriving instance DecidableEq for Except

/-- Replace the first element of the list satisfying `p` by `x`, leaving the
rest unchanged.  This models updating, via `setattr`, the single ORM object
returned by `query(...).filter(...).first()`. -/
def updateFirst {α : Type} (p : α → Bool) (x : α) : List α → List α
  | [] => []
  | a :: as => if p a then x :: as else a :: updateFirst p x as

/-- Boolean pairwise-distinctness of a list of ids. -/
def nodupBool : List String → Bool
  | [] => true
  | x :: xs => !(xs.contains x) && nodupBool xs

/-- The single exception object raised by get_current_user (src/main.py
lines 40-44) for every authentication failure: HTTP 401, detail
"Could not validate credentials", WWW-Authenticate Bearer header. -/
def credentialsException : HTTPError :=
  { status := 401, detail := "Could not validate credentials", www_authenticate := true }

/-- The externally visible outcome of an uncaught exception inside a handler
(an IntegrityError raised by commit, or a pydantic ValidationError raised
while constructing a response model): HTTP 500. -/
def internalServerError : HTTPError :=
  { status := 500, detail := "Internal Server Error", www_authenticate := false }

/-- signup duplicate-email rejection (src/main.py line 63). -/
def emailTakenError : HTTPError :=
  { status := 400, detail := "Email already registered", www_authenticate := false }

/-- delete_goal missing-row rejection (src/main.py line 101). -/
def goalNotFoundError : HTTPError :=
  { status := 404, detail := "Goal not found", www_authenticate := false }

/-- delete_subject missing-row rejection (src/main.py line 157). -/
def subjectNotFoundError : HTTPError :=
  { status := 404, detail := "Subject not found", www_authenticate := false }

/-- Outcome of `jwt.decode(token, SECRET_KEY, algorithms=[ALGORITHM])` on the
presented bearer token: either the jose library raises JWTError (bad
signature, malformed token, or expired), or it yields a claims payload whose
`sub` claim may be absent. -/
inductive TokenDecode where
  | jwtError
  | payload (sub : Option String)
deriving DecidableEq, Repr

/-- get_current_user (src/main.py lines 39-56): on JWTError, on an absent
`sub` claim, and on an email matching no stored user, it raises the one
`credentials_exception` object; otherwise it returns the matched user. -/
def get_current_user (db : DB) (t : TokenDecode) : Except HTTPError UserRow :=
  match t with
  | .jwtError => .error credentialsException
  | .payload none => .error credentialsException
  | .payload (some email) =>
    match db.users.find? (fun u => u.email == email) with
    | none => .error credentialsException
    | some u => .ok u

/-- SQLite assigns a fresh integer primary key to an inserted User: one more
than the largest id in the table. -/
def nextUserId (db : DB) : Nat :=
  (db.users.map (fun u => u.id)).foldr Nat.max 0 + 1

/-- signup (src/main.py lines 59-70).  `hashFn` stands for
auth.get_password_hash, whose definition lives in auth.py; signup only
stores its output.  The response is built by FastAPI from the ORM object
via from_attributes, which succeeds. -/
def signup (db : DB) (hashFn : String → String) (u : UserCreate) :
    DB × Except HTTPError UserOut :=
  match db.users.find? (fun r => r.email == u.email) with
  | some _ => (db, .error emailTakenError)
  | none =>
    let nu : UserRow := { id := nextUserId db, email := u.email, hashed_password := hashFn u.password }
    ({ db with users := db.users ++ [nu] }, .ok { id := nu.id, email := nu.email })

/-- schemas.Goal built by FastAPI from a Goal ORM row via from_attributes. -/
def goalOutOfRow (g : GoalRow) : GoalOut :=
  { id := g.id, title := g.title, type := g.type, details := g.details, owner_id := g.owner_id }

/-- read_goals = GET /goals (src/main.py lines 85-87): the owner-filtered
goal list, serialized from attributes (owner_id present, so it succeeds). -/
def read_goals (db : DB) (uid : Nat) : List GoalOut :=
  (db.goals.filter (fun g => g.owner_id == uid)).map goalOutOfRow

/-- create_goal = POST /goals (src/main.py lines 89-95): unconditionally
constructs a Goal row from the payload with owner_id = caller and
session.add + commit it.  The flush INSERTs; when the goals table already holds
that primary key, SQLite raises IntegrityError and nothing is committed. -/
def create_goal (db : DB) (uid : Nat) (g : GoalCreate) :
    DB × Except HTTPError GoalOut :=
  let row : GoalRow := { id := g.id, title := g.title, type := g.type, details := g.details, owner_id := uid }
  if db.goals.all (fun r => !(r.id == g.id)) then
    ({ db with goals := db.goals ++ [row] }, .ok (goalOutOfRow row))
  else
    (db, .error internalServerError)

/-- delete_goal = DELETE /goals/goal_id (src/main.py lines 97-107).  The
goal lookup filters by id AND owner (line 99).  The child-subject removal
(line 104) is `db.query(Subject).filter(Subject.goal_id == goal_id).delete()`:
a bulk DELETE with NO owner filter, which also bypasses the ORM
cascade="all, delete-orphan" of Subject.chapters, and no database-level ON
DELETE action exists, so chapter rows are left in place.  `db.delete(db_goal)`
then removes the goal row itself (Goal configures no cascade). -/
def delete_goal (db : DB) (uid : Nat) (goal_id : String) :
    DB × Except HTTPError String :=
  match db.goals.find? (fun g => g.id == goal_id && g.owner_id == uid) with
  | none => (db, .error goalNotFoundError)
  | some g =>
    let subjects' := db.subjects.filter (fun s => !(s.goal_id == goal_id))
    let goals' := db.goals.filter (fun r => !(r.id == g.id))
    ({ db with goals := goals', subjects := subjects' }, .ok "Goal deleted")

/-- The Subject row written by create_or_update_subject for caller `uid`
from payload `s` (src/main.py lines 126-136): every column including
owner_id = caller. -/
def rowOfSubjectCreate (uid : Nat) (s : SubjectCreate) : SubjectRow :=
  { id := s.id, goal_id := s.goalId, name := s.name, color := s.color,
    tracking_mode := s.trackingMode, schedule := s.schedule,
    total_study_hours := s.totalStudyHours, total_target_hours := s.totalTargetHours,
    owner_id := uid }

/-- The handler builds `schemas.Subject(id=..., goalId=..., name=...,
color=..., trackingMode=..., schedule=..., totalStudyHours=...,
totalTargetHours=...)` (src/main.py lines 115-120 and 147-151) WITHOUT the
`owner_id` field, which schemas.Subject declares as a required `int`
(src/schemas.py line 53).  Pydantic therefore rejects the construction with
a ValidationError, surfaced as HTTP 500. -/
def buildSubjectOut (_s : SubjectRow) : Except HTTPError SubjectOut :=
  .error internalServerError

/-- Sequence pydantic constructions over a list, stopping at the first
raised error (the Python list comprehension). -/
def buildList {α β : Type} (f : α → Except HTTPError β) : List α → Except HTTPError (List β)
  | [] => .ok []
  | a :: as =>
    match f a with
    | .error e => .error e
    | .ok b => (buildList f as).map (fun bs => b :: bs)

/-- read_subjects = GET /subjects (src/main.py lines 110-120): filters by
owner, then builds a schemas.Subject per row — each construction omits the
required owner_id, so any nonempty result raises. -/
def read_subjects (db : DB) (uid : Nat) : Except HTTPError (List SubjectOut) :=
  buildList buildSubjectOut (db.subjects.filter (fun s => s.owner_id == uid))

/-- create_or_update_subject = POST /subjects (src/main.py lines 122-151).
The lookup (line 124) filters by id AND owner.  If found, every column of
that row is overwritten from the payload (same id, same owner).  Otherwise a
new row with owner_id = caller is session.add-ed; the commit INSERT raises
IntegrityError when the subjects table already holds that primary key (a row
of a different owner), and then nothing is committed.  On the non-error
paths the handler then constructs the schemas.Subject response, which always
raises (owner_id omitted) — after the commit. -/
def create_or_update_subject (db : DB) (uid : Nat) (s : SubjectCreate) :
    DB × Except HTTPError SubjectOut :=
  let sameKey := fun (r : SubjectRow) => r.id == s.id && r.owner_id == uid
  match db.subjects.find? sameKey with
  | some _ =>
    ({ db with subjects := updateFirst sameKey (rowOfSubjectCreate uid s) db.subjects },
      buildSubjectOut (rowOfSubjectCreate uid s))
  | none =>
    if db.subjects.all (fun r => !(r.id == s.id)) then
      ({ db with subjects := db.subjects ++ [rowOfSubjectCreate uid s] },
        buildSubjectOut (rowOfSubjectCreate uid s))
    else
      (db, .error internalServerError)

/-- delete_subject = DELETE /subjects/subject_id (src/main.py lines
153-160).  The lookup filters by id AND owner; `db.delete(db_subject)` is an
ORM-level delete, so the cascade="all, delete-orphan" configured on
Subject.chapters (src/models.py line 38) fires and the chapters of that
subject are deleted with it. -/
def delete_subject (db : DB) (uid : Nat) (subject_id : String) :
    DB × Except HTTPError String :=
  match db.subjects.find? (fun r => r.id == subject_id && r.owner_id == uid) with
  | none => (db, .error subjectNotFoundError)
  | some s =>
    ({ db with
        subjects := db.subjects.filter (fun r => !(r.id == s.id)),
        chapters := db.chapters.filter (fun c => !(c.subject_id == s.id)) },
      .ok "Subject deleted")

/-- The Notification row written by sync_notifications for caller `uid`
from payload `n` (src/main.py lines 179-184): every column including
owner_id = caller. -/
def rowOfNotificationCreate (uid : Nat) (n : NotificationCreate) : NotificationRow :=
  { id := n.id, subject_id := n.subjectId, subject_name := n.subjectName,
    type := n.type, scheduled_hours := n.scheduledHours,
    scheduled_time := n.scheduledTime, scheduled_date := n.scheduledDate,
    status := n.status, read := n.read, timestamp := n.timestamp, owner_id := uid }

/-- The handler builds `schemas.Notification(id=..., subjectId=...,
subjectName=..., type=..., scheduledHours=..., scheduledTime=...,
scheduledDate=..., status=..., read=..., timestamp=...)` (src/main.py lines
167-171) WITHOUT the `owner_id` field, which schemas.Notification declares
as a required `int` (src/schemas.py line 74).  Pydantic therefore rejects
the construction with a ValidationError, surfaced as HTTP 500. -/
def buildNotificationOut (_n : NotificationRow) : Except HTTPError NotificationOut :=
  .error internalServerError

/-- read_notifications = GET /notifications (src/main.py lines 163-172):
filters by owner, then builds a schemas.Notification per row — each
construction omits the required owner_id, so any nonempty result raises. -/
def read_notifications (db : DB) (uid : Nat) : Except HTTPError (List NotificationOut) :=
  buildList buildNotificationOut (db.notifications.filter (fun n => n.owner_id == uid))

/-- One iteration of the sync loop (src/main.py lines 177-188) on the
session state (committed rows as the session sees them, pending INSERTs).
The query (line 178) filters by id AND owner against the committed table —
autoflush is off, so pending session.add rows are invisible to it; a hit
returns the identity-mapped object, whose columns are all overwritten from
the payload (same id, same owner, owner_id = caller); a miss adds a fresh
row with owner_id = caller to the pending INSERTs. -/
def syncStep (uid : Nat) (st : List NotificationRow × List NotificationRow)
    (n : NotificationCreate) : List NotificationRow × List NotificationRow :=
  let sameKey := fun (r : NotificationRow) => r.id == n.id && r.owner_id == uid
  if st.1.any sameKey then
    (updateFirst sameKey (rowOfNotificationCreate uid n) st.1, st.2)
  else
    (st.1, st.2 ++ [rowOfNotificationCreate uid n])

/-- sync_notifications = POST /notifications/sync (src/main.py lines
174-191): run the loop over the input, then commit.  The flush UPDATEs the
modified rows in place and INSERTs the pending rows; an INSERT whose id
collides with an existing row or with another pending INSERT violates the
primary key, SQLite raises IntegrityError and nothing is committed.  On
success the handler returns read_notifications on the new state, which is
computed after the commit. -/
def sync_notifications (db : DB) (uid : Nat) (input : List NotificationCreate) :
    DB × Except HTTPError (List NotificationOut) :=
  let st := input.foldl (syncStep uid) (db.notifications, [])
  if (st.2.all (fun r => db.notifications.all (fun e => !(e.id == r.id)))) &&
      nodupBool (st.2.map (fun r => r.id)) then
    let db' := { db with notifications := st.1 ++ st.2 }
    (db', read_notifications db' uid)
  else
    (db, .error internalServerError)

/-- Concrete state: two users; user 2 owns goal g1; user 1 owns subject sA
whose goal_id references g1 (POST /subjects never checks that the goalId in
the payload names a goal of the caller, and foreign keys are not enforced,
so this state is reachable). -/
def dbCrossOwner : DB :=
  { users := [{ id := 1, email := "a@x.com", hashed_password := "h1" },
              { id := 2, email := "b@x.com", hashed_password := "h2" }],
    goals := [{ id := "g1", title := "Exam prep", type := "EXAM", details := "d", owner_id := 2 }],
    subjects := [{ id := "sA", goal_id := "g1", name := "Math", color := "red",
                   tracking_mode := "SCHEDULE", schedule := none,
                   total_study_hours := 0, total_target_hours := none, owner_id := 1 }],
    chapters := [], notifications := [] }

/-- Concrete state: one user owning goal g1, subject s1 referencing g1, and
chapter c1 belonging to s1. -/
def dbGoalCascade : DB :=
  { users := [{ id := 1, email := "a@x.com", hashed_password := "h" }],
    goals := [{ id := "g1", title := "t", type := "MONTHLY", details := "d", owner_id := 1 }],
    subjects := [{ id := "s1", goal_id := "g1", name := "Math", color := "red",
                   tracking_mode := "SCHEDULE", schedule := none,
                   total_study_hours := 0, total_target_hours := none, owner_id := 1 }],
    chapters := [{ id := "c1", subject_id := "s1", name := "Ch 1",
                   target_date := "2025-01-01", target_time := none,
                   estimated_duration := none, completed := false }],
    notifications := [] }

/-- Concrete state: one user with zero prior notifications. -/
def dbEmptyNotifs : DB :=
  { users := [{ id := 1, email := "a@x.com", hashed_password := "h" }],
    goals := [], subjects := [], chapters := [], notifications := [] }

/-- A single notification payload (status PENDING). -/
def notifInputOne : NotificationCreate :=
  { id := "n1", subjectId := "s1", subjectName := "Math", type := "STUDY_TIME",
    scheduledHours := 2, scheduledTime := "10:00", scheduledDate := "2025-01-01",
    status := "PENDING", read := false, timestamp := 100 }

/-- Concrete state: user 1 already owns goal g1. -/
def dbGoalExisting : DB :=
  { users := [{ id := 1, email := "a@x.com", hashed_password := "h" }],
    goals := [{ id := "g1", title := "Old title", type := "MONTHLY", details := "d", owner_id := 1 }],
    subjects := [], chapters := [], notifications := [] }

/-- A POST /goals payload reusing the id g1 with changed mutable fields. -/
def goalPayloadNew : GoalCreate :=
  { id := "g1", title := "New title", type := "EXAM", details := "e" }

/-- Concrete state: two users; user 1 owns subject s1. -/
def dbForeignSubject : DB :=
  { users := [{ id := 1, email := "a@x.com", hashed_password := "h1" },
              { id := 2, email := "b@x.com", hashed_password := "h2" }],
    goals := [],
    subjects := [{ id := "s1", goal_id := "g1", name := "Math", color := "red",
                   tracking_mode := "SCHEDULE", schedule := none,
                   total_study_hours := 0, total_target_hours := none, owner_id := 1 }],
    chapters := [], notifications := [] }

/-- A POST /subjects payload from user 2 reusing the id s1 held by user 1. -/
def subjectPayloadS1 : SubjectCreate :=
  { id := "s1", goalId := "g1", name := "Bio", color := "blue",
    trackingMode := "SCHEDULE", schedule := none,
    totalStudyHours := 0, totalTargetHours := none }

/-- A POST /subjects payload from user 1 reusing its own id s1. -/
def subjectPayloadOwn : SubjectCreate :=
  { id := "s1", goalId := "g1", name := "Math II", color := "green",
    trackingMode := "MANUAL", schedule := none,
    totalStudyHours := 3, totalTargetHours := some 10 }

/-- Concrete state: two users; user 1 owns notification n1. -/
def dbForeignNotif : DB :=
  { users := [{ id := 1, email := "a@x.com", hashed_password := "h1" },
              { id := 2, email := "b@x.com", hashed_password := "h2" }],
    goals := [], subjects := [], chapters := [],
    notifications := [{ id := "n1", subject_id := "s1", subject_name := "Math",
                        type := "STUDY_TIME", scheduled_hours := 2,
                        scheduled_time := "10:00", scheduled_date := "2025-01-01",
                        status := "PENDING", read := false, timestamp := 100,
                        owner_id := 1 }] }

/-- A sync payload from user 2 reusing the notification id n1 held by
user 1. -/
def notifPayloadN1 : NotificationCreate :=
  { id := "n1", subjectId := "s1", subjectName := "Chem", type := "STUDY_TIME",
    scheduledHours := 1, scheduledTime := "11:00", scheduledDate := "2025-01-02",
    status := "COMPLETED", read := true, timestamp := 200 }

theorem mem_updateFirst {α : Type} {p : α → Bool} {x : α} {l : List α} {r : α}
    (h : r ∈ updateFirst p x l) : r ∈ l ∨ r = x := by
  induction l with
  | nil => simp [updateFirst] at h
  | cons a as ih =>
    simp only [updateFirst] at h
    split at h
    · rcases List.mem_cons.mp h with h | h
      · exact Or.inr h
      · exact Or.inl (List.mem_cons_of_mem _ h)
    · rcases List.mem_cons.mp h with h | h
      · exact Or.inl (h ▸ List.mem_cons_self _ _)
      · rcases ih h with h | h
        · exact Or.inl (List.mem_cons_of_mem _ h)
        · exact Or.inr h

theorem map_updateFirst {α β : Type} (g : α → β) (p : α → Bool) (x : α) (l : List α)
    (hpx : ∀ a, p a = true → g a = g x) :
    (updateFirst p x l).map g = l.map g := by
  induction l with
  | nil => rfl
  | cons a as ih =>
    simp only [updateFirst]
    split
    · simp only [List.map_cons]
      rename_i h
      rw [hpx a h]
    · simp only [List.map_cons, ih]

theorem mem_map_key_of_updateFirst {α β : Type} {g : α → β} {p : α → Bool} {x : α} {l : List α}
    (hpx : ∀ a, p a = true → g a = g x) {r : α} (hr : r ∈ l) :
    ∃ r' ∈ updateFirst p x l, g r' = g r := by
  have hmap := map_updateFirst g p x l hpx
  have : g r ∈ (updateFirst p x l).map g := by
    rw [hmap]; exact List.mem_map_of_mem g hr
  obtain ⟨r', hr', hgr⟩ := List.mem_map.mp this
  exact ⟨r', hr', hgr⟩

/-- In a list whose projected ids carry no duplicate, two members with the
same id are the same row. -/
theorem eq_of_mem_of_nodup_ids {α : Type} (f : α → String) {l : List α}
    (h : nodupBool (l.map f) = true) {a b : α} (ha : a ∈ l) (hb : b ∈ l)
    (hid : f a = f b) : a = b := by
  induction l with
  | nil => cases ha
  | cons c cs ih =>
    simp only [List.map_cons, nodupBool, Bool.and_eq_true, Bool.not_eq_true'] at h
    rcases List.mem_cons.mp ha with ha' | ha' <;> rcases List.mem_cons.mp hb with hb' | hb'
    · exact ha'.trans hb'.symm
    · exfalso
      have : f c ∈ cs.map f := by
        rw [ha'] at hid
        rw [hid]
        exact List.mem_map_of_mem f hb'
      have hc := h.1
      rw [List.contains_eq_any_beq] at hc
      have : (cs.map f).any (fun y => f c == y) = true :=
        List.any_eq_true.mpr ⟨f c, this, by simp⟩
      simp [this] at hc
    · exfalso
      have : f c ∈ cs.map f := by
        rw [hb'] at hid
        rw [← hid]
        exact List.mem_map_of_mem f ha'
      have hc := h.1
      rw [List.contains_eq_any_beq] at hc
      have : (cs.map f).any (fun y => f c == y) = true :=
        List.any_eq_true.mpr ⟨f c, this, by simp⟩
      simp [this] at hc
    · exact ih h.2 ha' hb'

/-- C5: the Unauthenticated failure of identity resolution is externally
indistinguishable across its three causes: whether jwt.decode rejects the
token (bad signature, malformed, expired), the decoded payload carries no
sub claim, or the sub claim matches no stored user, get_current_user yields
the one credentials_exception object — HTTP 401, detail "Could not validate
credentials", WWW-Authenticate Bearer — so any two such failures produce the
identical status code and response body. -/
theorem get_current_user_failures_indistinguishable (db : DB) (t : TokenDecode)
    (h : t = TokenDecode.jwtError ∨ t = TokenDecode.payload none ∨
      ∃ e, t = TokenDecode.payload (some e) ∧
        db.users.all (fun u => !(u.email == e)) = true) :
    get_current_user db t = Except.error credentialsException := by
  rcases h with h | h | ⟨e, ht, hall⟩
  · rw [h]; rfl
  · rw [h]; rfl
  · rw [ht]
    simp only [get_current_user]
    have hnone : db.users.find? (fun u => u.email == e) = none := by
      rw [List.find?_eq_none]
      intro u hu
      have := List.all_eq_true.mp hall u hu
      simp only [Bool.not_eq_true'] at this
      simp [this]
    rw [hnone]

/-- Witness for C5: a concrete database and one concrete token per cause,
all three yielding the same error value. -/
theorem get_current_user_failures_witness :
    get_current_user dbEmptyNotifs TokenDecode.jwtError
        = Except.error credentialsException ∧
    get_current_user dbEmptyNotifs (TokenDecode.payload none)
        = Except.error credentialsException ∧
    get_current_user dbEmptyNotifs (TokenDecode.payload (some "ghost@x.com"))
        = Except.error credentialsException :=
  ⟨get_current_user_failures_indistinguishable dbEmptyNotifs _ (Or.inl rfl),
   get_current_user_failures_indistinguishable dbEmptyNotifs _ (Or.inr (Or.inl rfl)),
   get_current_user_failures_indistinguishable dbEmptyNotifs _
     (Or.inr (Or.inr ⟨"ghost@x.com", rfl, by decide⟩))⟩

/-- C6: POST /signup with an email equal to an existing user's email fails
with the EmailTaken error (HTTP 400, "Email already registered") and changes
nothing; with an unused email it succeeds and appends exactly one new User
row carrying that email, all other tables untouched. -/
theorem signup_email_taken_or_creates (db : DB) (hashFn : String → String)
    (u : UserCreate) :
    (db.users.any (fun r => r.email == u.email) = true →
      signup db hashFn u = (db, Except.error emailTakenError)) ∧
    (db.users.any (fun r => r.email == u.email) = false →
      (signup db hashFn u).1.users
          = db.users ++ [{ id := nextUserId db, email := u.email,
                           hashed_password := hashFn u.password }] ∧
      (signup db hashFn u).2 = Except.ok { id := nextUserId db, email := u.email } ∧
      (signup db hashFn u).1.goals = db.goals ∧
      (signup db hashFn u).1.subjects = db.subjects ∧
      (signup db hashFn u).1.chapters = db.chapters ∧
      (signup db hashFn u).1.notifications = db.notifications) := by
  constructor
  · intro h
    obtain ⟨r, hr, hre⟩ := List.any_eq_true.mp h
    simp only [signup]
    cases hf : db.users.find? (fun r => r.email == u.email) with
    | none =>
      exfalso
      exact absurd hre (by simpa using List.find?_eq_none.mp hf r hr)
    | some _ => rfl
  · intro h
    have hf : db.users.find? (fun r => r.email == u.email) = none := by
      rw [List.find?_eq_none]
      intro x hx
      have := List.any_eq_false.mp h x hx
      simp only [this]
      simp
    simp [signup, hf]

/-- Witness for C6: a duplicate email is rejected with the table unchanged,
and an unused email appends exactly one row. -/
theorem signup_email_taken_or_creates_witness :
    signup dbEmptyNotifs (fun p => p) { email := "a@x.com", password := "pw" }
        = (dbEmptyNotifs, Except.error emailTakenError) ∧
    (signup dbEmptyNotifs (fun p => p) { email := "b@x.com", password := "pw" }).1.users
        = dbEmptyNotifs.users
          ++ [{ id := nextUserId dbEmptyNotifs, email := "b@x.com", hashed_password := "pw" }] :=
  ⟨(signup_email_taken_or_creates dbEmptyNotifs (fun p => p) _).1 (by decide),
   ((signup_email_taken_or_creates dbEmptyNotifs (fun p => p) _).2 (by decide)).1⟩

/-- C4 amended: POST /goals is a plain insert, never an update.  When the
supplied id is absent from the goals table, a single new row owned by the
caller is appended and returned; when any row (of any owner, the caller
included) already carries that id, the unconditional INSERT violates the
primary key and the request fails with a 500, leaving every table unchanged.
In no case is an existing row overwritten. -/
theorem create_goal_inserts_never_updates (db : DB) (uid : Nat) (g : GoalCreate) :
    (db.goals.all (fun r => !(r.id == g.id)) = true →
      create_goal db uid g
        = ({ db with goals := db.goals
              ++ [{ id := g.id, title := g.title, type := g.type,
                    details := g.details, owner_id := uid }] },
            Except.ok { id := g.id, title := g.title, type := g.type,
                        details := g.details, owner_id := uid })) ∧
    (db.goals.all (fun r => !(r.id == g.id)) = false →
      create_goal db uid g = (db, Except.error internalServerError)) := by
  constructor
  · intro h
    simp [create_goal, h, goalOutOfRow]
  · intro h
    simp [create_goal, h]

/-- Witness for C4: a fresh id is appended; a taken id fails with the store
error and changes nothing. -/
theorem create_goal_inserts_never_updates_witness :
    create_goal dbGoalExisting 1 { id := "g2", title := "T", type := "EXAM", details := "d" }
        = ({ dbGoalExisting with goals := dbGoalExisting.goals
              ++ [{ id := "g2", title := "T", type := "EXAM", details := "d", owner_id := 1 }] },
            Except.ok { id := "g2", title := "T", type := "EXAM", details := "d", owner_id := 1 }) ∧
    create_goal dbGoalExisting 1 goalPayloadNew = (dbGoalExisting, Except.error internalServerError) :=
  ⟨(create_goal_inserts_never_updates dbGoalExisting 1 _).1 (by decide),
   (create_goal_inserts_never_updates dbGoalExisting 1 goalPayloadNew).2 (by decide)⟩

/-- C9: DELETE /subjects/subject_id fails with NotFound (HTTP 404) exactly
when no Subject with that id is owned by the caller, and in that case no row
of any table is removed (the whole state is unchanged); on success the named
Subject is removed together with every Chapter whose subject reference is
that Subject (the ORM cascade fires on session.delete), and no other table
is touched. -/
theorem delete_subject_notfound_iff_cascade (db : DB) (uid : Nat) (sid : String) :
    (db.subjects.any (fun r => r.id == sid && r.owner_id == uid) = false →
      delete_subject db uid sid = (db, Except.error subjectNotFoundError)) ∧
    (db.subjects.any (fun r => r.id == sid && r.owner_id == uid) = true →
      (delete_subject db uid sid).2 = Except.ok "Subject deleted" ∧
      (delete_subject db uid sid).1.subjects
          = db.subjects.filter (fun r => !(r.id == sid)) ∧
      (delete_subject db uid sid).1.chapters
          = db.chapters.filter (fun c => !(c.subject_id == sid)) ∧
      (delete_subject db uid sid).1.goals = db.goals ∧
      (delete_subject db uid sid).1.users = db.users ∧
      (delete_subject db uid sid).1.notifications = db.notifications) := by
  constructor
  · intro h
    have hf : db.subjects.find? (fun r => r.id == sid && r.owner_id == uid) = none := by
      rw [List.find?_eq_none]
      intro x hx
      have := List.any_eq_false.mp h x hx
      simp only [this]
      simp
    simp [delete_subject, hf]
  · intro h
    obtain ⟨r, hr, hre⟩ := List.any_eq_true.mp h
    cases hf : db.subjects.find? (fun r => r.id == sid && r.owner_id == uid) with
    | none =>
      exact absurd hre (by simpa using List.find?_eq_none.mp hf r hr)
    | some s =>
      have hsid : s.id = sid := by
        have := List.find?_some hf
        simp only [Bool.and_eq_true, beq_iff_eq] at this
        exact this.1
      simp [delete_subject, hf, hsid]

/-- Witness for C9: deleting a missing id returns 404 with nothing removed;
deleting an owned subject removes it and its chapter. -/
theorem delete_subject_notfound_iff_cascade_witness :
    delete_subject dbGoalCascade 1 "zz" = (dbGoalCascade, Except.error subjectNotFoundError) ∧
    (delete_subject dbGoalCascade 1 "s1").1.subjects
        = dbGoalCascade.subjects.filter (fun r => !(r.id == "s1")) ∧
    (delete_subject dbGoalCascade 1 "s1").1.chapters
        = dbGoalCascade.chapters.filter (fun c => !(c.subject_id == "s1")) :=
  ⟨(delete_subject_notfound_iff_cascade dbGoalCascade 1 "zz").1 (by decide),
   ((delete_subject_notfound_iff_cascade dbGoalCascade 1 "s1").2 (by decide)).2.1,
   ((delete_subject_notfound_iff_cascade dbGoalCascade 1 "s1").2 (by decide)).2.2.1⟩

theorem syncStep_owner (uid : Nat) (st : List NotificationRow × List NotificationRow)
    (n : NotificationCreate) :
    (∀ r ∈ (syncStep uid st n).1, r ∈ st.1 ∨ r.owner_id = uid) ∧
    (∀ r ∈ (syncStep uid st n).2, r ∈ st.2 ∨ r.owner_id = uid) := by
  simp only [syncStep]
  split
  · refine ⟨fun r hr => ?_, fun r hr => Or.inl hr⟩
    rcases mem_updateFirst hr with h | h
    · exact Or.inl h
    · right; rw [h]; rfl
  · refine ⟨fun r hr => Or.inl hr, fun r hr => ?_⟩
    rcases List.mem_append.mp hr with h | h
    · exact Or.inl h
    · right
      have : r = rowOfNotificationCreate uid n := by simpa using h
      rw [this]; rfl

theorem syncFold_owner (uid : Nat) (input : List NotificationCreate) :
    ∀ st : List NotificationRow × List NotificationRow,
      (∀ r ∈ (input.foldl (syncStep uid) st).1, r ∈ st.1 ∨ r.owner_id = uid) ∧
      (∀ r ∈ (input.foldl (syncStep uid) st).2, r ∈ st.2 ∨ r.owner_id = uid) := by
  induction input with
  | nil => exact fun st => ⟨fun r hr => Or.inl hr, fun r hr => Or.inl hr⟩
  | cons n ns ih =>
    intro st
    simp only [List.foldl_cons]
    constructor
    · intro r hr
      rcases (ih (syncStep uid st n)).1 r hr with h | h
      · rcases (syncStep_owner uid st n).1 r h with h2 | h2
        · exact Or.inl h2
        · exact Or.inr h2
      · exact Or.inr h
    · intro r hr
      rcases (ih (syncStep uid st n)).2 r hr with h | h
      · rcases (syncStep_owner uid st n).2 r h with h2 | h2
        · exact Or.inl h2
        · exact Or.inr h2
      · exact Or.inr h

/-- C10 (implicit): every row created or overwritten through an
authenticated write endpoint — POST /goals, POST /subjects, POST
/notifications/sync — carries the authenticated caller's id as owner_id:
each row of the resulting table is either a pre-existing row or a row whose
owner_id equals the caller.  The payload types (GoalCreate, SubjectCreate,
NotificationCreate) carry no owner field, so no payload can assign or
transfer ownership to any other user. -/
theorem authenticated_writes_set_owner_to_caller (db : DB) (uid : Nat)
    (g : GoalCreate) (s : SubjectCreate) (input : List NotificationCreate) :
    (∀ r ∈ (create_goal db uid g).1.goals, r ∈ db.goals ∨ r.owner_id = uid) ∧
    (∀ r ∈ (create_or_update_subject db uid s).1.subjects,
        r ∈ db.subjects ∨ r.owner_id = uid) ∧
    (∀ r ∈ (sync_notifications db uid input).1.notifications,
        r ∈ db.notifications ∨ r.owner_id = uid) := by
  refine ⟨?_, ?_, ?_⟩
  · intro r hr
    by_cases hc : db.goals.all (fun r2 => !(r2.id == g.id)) = true
    · simp only [create_goal, hc, if_true] at hr
      rcases List.mem_append.mp hr with h | h
      · exact Or.inl h
      · right
        have : r = { id := g.id, title := g.title, type := g.type,
                     details := g.details, owner_id := uid } := by simpa using h
        rw [this]
    · have hc' : db.goals.all (fun r2 => !(r2.id == g.id)) = false :=
        Bool.eq_false_iff.mpr hc
      simp only [create_goal, hc', Bool.false_eq_true, if_false] at hr
      exact Or.inl hr
  · intro r hr
    cases hf : db.subjects.find? (fun r2 => r2.id == s.id && r2.owner_id == uid) with
    | some r0 =>
      simp only [create_or_update_subject, hf] at hr
      rcases mem_updateFirst hr with h | h
      · exact Or.inl h
      · right; rw [h]; rfl
    | none =>
      by_cases hc : db.subjects.all (fun r2 => !(r2.id == s.id)) = true
      · simp only [create_or_update_subject, hf, hc, if_true] at hr
        rcases List.mem_append.mp hr with h | h
        · exact Or.inl h
        · right
          have : r = rowOfSubjectCreate uid s := by simpa using h
          rw [this]; rfl
      · have hc' : db.subjects.all (fun r2 => !(r2.id == s.id)) = false :=
          Bool.eq_false_iff.mpr hc
        simp only [create_or_update_subject, hf, hc', Bool.false_eq_true, if_false] at hr
        exact Or.inl hr
  · intro r hr
    have hfold := syncFold_owner uid input (db.notifications, [])
    by_cases hc : (((input.foldl (syncStep uid) (db.notifications, [])).2.all
          (fun r2 => db.notifications.all (fun e => !(e.id == r2.id)))) &&
        nodupBool ((input.foldl (syncStep uid) (db.notifications, [])).2.map
          (fun r2 => r2.id))) = true
    · simp only [sync_notifications, hc, if_true] at hr
      rcases List.mem_append.mp hr with h | h
      · rcases hfold.1 r h with h2 | h2
        · exact Or.inl h2
        · exact Or.inr h2
      · rcases hfold.2 r h with h2 | h2
        · cases h2
        · exact Or.inr h2
    · have hc' := Bool.eq_false_iff.mpr hc
      simp only [sync_notifications, hc', Bool.false_eq_true, if_false] at hr
      exact Or.inl hr

theorem syncStep_keys (uid : Nat) (st : List NotificationRow × List NotificationRow)
    (n : NotificationCreate) :
    (syncStep uid st n).1.map (fun r => (r.id, r.owner_id))
      = st.1.map (fun r => (r.id, r.owner_id)) := by
  simp only [syncStep]
  split
  · apply map_updateFirst
    intro a ha
    simp only [Bool.and_eq_true, beq_iff_eq] at ha
    simp [ha.1, ha.2, rowOfNotificationCreate]
  · rfl

theorem syncFold_keys (uid : Nat) (input : List NotificationCreate) :
    ∀ st : List NotificationRow × List NotificationRow,
      (input.foldl (syncStep uid) st).1.map (fun r => (r.id, r.owner_id))
        = st.1.map (fun r => (r.id, r.owner_id)) := by
  induction input with
  | nil => intro st; rfl
  | cons n ns ih =>
    intro st
    simp only [List.foldl_cons]
    rw [ih (syncStep uid st n), syncStep_keys]

theorem syncStep_pending (uid : Nat) (st : List NotificationRow × List NotificationRow)
    (n : NotificationCreate) :
    (syncStep uid st n).2 = st.2 ∨
    (syncStep uid st n).2 = st.2 ++ [rowOfNotificationCreate uid n] := by
  simp only [syncStep]
  split
  · exact Or.inl rfl
  · exact Or.inr rfl

theorem syncFold_pending_extends (uid : Nat) (input : List NotificationCreate) :
    ∀ st : List NotificationRow × List NotificationRow,
      ∃ rest, (input.foldl (syncStep uid) st).2 = st.2 ++ rest := by
  induction input with
  | nil => intro st; exact ⟨[], by simp⟩
  | cons n ns ih =>
    intro st
    simp only [List.foldl_cons]
    obtain ⟨rest, hrest⟩ := ih (syncStep uid st n)
    rcases syncStep_pending uid st n with h | h
    · exact ⟨rest, by rw [hrest, h]⟩
    · exact ⟨[rowOfNotificationCreate uid n] ++ rest, by rw [hrest, h, List.append_assoc]⟩

/-- An input element whose (id, caller) pair matches no committed row ends
up among the pending INSERTs of the sync loop. -/
theorem syncFold_collision_pending (uid : Nat) (base : List NotificationRow)
    (n : NotificationCreate)
    (hnobody : ((n.id, uid) : String × Nat) ∉ base.map (fun r => (r.id, r.owner_id))) :
    ∀ input : List NotificationCreate, n ∈ input →
    ∀ st : List NotificationRow × List NotificationRow,
      st.1.map (fun r => (r.id, r.owner_id)) = base.map (fun r => (r.id, r.owner_id)) →
      ∃ rp ∈ (input.foldl (syncStep uid) st).2, rp.id = n.id := by
  intro input
  induction input with
  | nil => intro hn; cases hn
  | cons m ms ih =>
    intro hn st hst
    simp only [List.foldl_cons]
    rcases List.mem_cons.mp hn with heq | hmem
    · have hany : st.1.any (fun r => r.id == n.id && r.owner_id == uid) = false := by
        rw [List.any_eq_false]
        intro r hr hpr
        simp only [Bool.and_eq_true, beq_iff_eq] at hpr
        apply hnobody
        rw [← hst]
        have hm : ((r.id, r.owner_id) : String × Nat)
            ∈ st.1.map (fun r2 => (r2.id, r2.owner_id)) :=
          List.mem_map_of_mem _ hr
        rw [hpr.1, hpr.2] at hm
        exact hm
      have hstep : (syncStep uid st m).2 = st.2 ++ [rowOfNotificationCreate uid n] := by
        rw [← heq]
        simp [syncStep, hany]
      obtain ⟨rest, hrest⟩ := syncFold_pending_extends uid ms (syncStep uid st m)
      refine ⟨rowOfNotificationCreate uid n, ?_, rfl⟩
      rw [hrest, hstep]
      simp
    · have hst' : (syncStep uid st m).1.map (fun r => (r.id, r.owner_id))
          = base.map (fun r => (r.id, r.owner_id)) := by
        rw [syncStep_keys, hst]
      exact ih hmem (syncStep uid st m) hst'

/-- C2: cross-tenant id collisions never reassign ownership.  (a) POST
/subjects whose payload id is held by a row of a different owner finds no
row for this owner, and the attempted fresh INSERT with that id is rejected
by the store's primary key, so the request fails with the generic 500 and
the state is unchanged — no fresh row bearing that id is created.  (b) The
same holds for POST /notifications/sync whenever some input element's id is
held by a row of a different owner: the whole commit fails and the state is
unchanged.  (c), (d): unconditionally, the subject upsert and the
notification sync preserve the (id, owner_id) pair of every pre-existing
row — an upsert never changes the owner_id of any existing row. -/
theorem upsert_never_reassigns_owner :
    (∀ (db : DB) (uid : Nat) (s : SubjectCreate),
      nodupBool (db.subjects.map (fun r => r.id)) = true →
      (∃ r ∈ db.subjects, r.id = s.id ∧ r.owner_id ≠ uid) →
      create_or_update_subject db uid s = (db, Except.error internalServerError)) ∧
    (∀ (db : DB) (uid : Nat) (input : List NotificationCreate) (n : NotificationCreate),
      n ∈ input →
      nodupBool (db.notifications.map (fun r => r.id)) = true →
      (∃ r ∈ db.notifications, r.id = n.id ∧ r.owner_id ≠ uid) →
      sync_notifications db uid input = (db, Except.error internalServerError)) ∧
    (∀ (db : DB) (uid : Nat) (s : SubjectCreate), ∀ r ∈ db.subjects,
      ∃ r' ∈ (create_or_update_subject db uid s).1.subjects,
        r'.id = r.id ∧ r'.owner_id = r.owner_id) ∧
    (∀ (db : DB) (uid : Nat) (input : List NotificationCreate), ∀ r ∈ db.notifications,
      ∃ r' ∈ (sync_notifications db uid input).1.notifications,
        r'.id = r.id ∧ r'.owner_id = r.owner_id) := by
  refine ⟨?_, ?_, ?_, ?_⟩
  · intro db uid s hnd ⟨r, hr, hrid, hro⟩
    have hf : db.subjects.find? (fun r2 => r2.id == s.id && r2.owner_id == uid) = none := by
      rw [List.find?_eq_none]
      intro x hx hpx
      simp only [Bool.and_eq_true, beq_iff_eq] at hpx
      have hxr : x = r :=
        eq_of_mem_of_nodup_ids (fun r2 => r2.id) hnd hx hr
          (by show x.id = r.id; rw [hpx.1, hrid])
      rw [hxr] at hpx
      exact hro hpx.2
    have hall : db.subjects.all (fun r2 => !(r2.id == s.id)) = false := by
      apply Bool.eq_false_iff.mpr
      intro hall
      have := List.all_eq_true.mp hall r hr
      simp [hrid] at this
    simp [create_or_update_subject, hf, hall]
  · intro db uid input n hn hnd ⟨r, hr, hrid, hro⟩
    have hnobody : ((n.id, uid) : String × Nat)
        ∉ db.notifications.map (fun r2 => (r2.id, r2.owner_id)) := by
      intro hmem
      obtain ⟨r2, hr2, hkr2⟩ := List.mem_map.mp hmem
      rw [Prod.mk.injEq] at hkr2
      have hr2r : r2 = r :=
        eq_of_mem_of_nodup_ids (fun r3 => r3.id) hnd hr2 hr
          (by show r2.id = r.id; rw [hkr2.1, hrid])
      rw [hr2r] at hkr2
      exact hro hkr2.2
    obtain ⟨rp, hrp, hrpid⟩ :=
      syncFold_collision_pending uid db.notifications n hnobody input hn
        (db.notifications, []) rfl
    have hA : ((input.foldl (syncStep uid) (db.notifications, [])).2.all
        (fun r2 => db.notifications.all (fun e => !(e.id == r2.id)))) = false := by
      apply Bool.eq_false_iff.mpr
      intro hall
      have h1 := List.all_eq_true.mp hall rp hrp
      have h2 := List.all_eq_true.mp h1 r hr
      rw [hrpid, ← hrid] at h2
      simp at h2
    simp [sync_notifications, hA]
  · intro db uid s r hr
    cases hf : db.subjects.find? (fun r2 => r2.id == s.id && r2.owner_id == uid) with
    | some r0 =>
      simp only [create_or_update_subject, hf]
      have hpx : ∀ a : SubjectRow, (a.id == s.id && a.owner_id == uid) = true →
          ((a.id, a.owner_id) : String × Nat)
            = ((rowOfSubjectCreate uid s).id, (rowOfSubjectCreate uid s).owner_id) := by
        intro a ha
        simp only [Bool.and_eq_true, beq_iff_eq] at ha
        simp [ha.1, ha.2, rowOfSubjectCreate]
      obtain ⟨r', hr', hk⟩ := mem_map_key_of_updateFirst hpx hr
      rw [Prod.mk.injEq] at hk
      exact ⟨r', hr', hk.1, hk.2⟩
    | none =>
      by_cases hc : db.subjects.all (fun r2 => !(r2.id == s.id)) = true
      · simp only [create_or_update_subject, hf, hc, if_true]
        exact ⟨r, List.mem_append_left _ hr, rfl, rfl⟩
      · have hc' := Bool.eq_false_iff.mpr hc
        simp only [create_or_update_subject, hf, hc', Bool.false_eq_true, if_false]
        exact ⟨r, hr, rfl, rfl⟩
  · intro db uid input r hr
    by_cases hc : (((input.foldl (syncStep uid) (db.notifications, [])).2.all
          (fun r2 => db.notifications.all (fun e => !(e.id == r2.id)))) &&
        nodupBool ((input.foldl (syncStep uid) (db.notifications, [])).2.map
          (fun r2 => r2.id))) = true
    · simp only [sync_notifications, hc, if_true]
      have hkeys := syncFold_keys uid input (db.notifications, [])
      have hm : ((r.id, r.owner_id) : String × Nat)
          ∈ (input.foldl (syncStep uid) (db.notifications, [])).1.map
              (fun r2 => (r2.id, r2.owner_id)) := by
        rw [hkeys]
        exact List.mem_map_of_mem _ hr
      obtain ⟨r', hr', hk⟩ := List.mem_map.mp hm
      rw [Prod.mk.injEq] at hk
      exact ⟨r', List.mem_append_left _ hr', hk.1, hk.2⟩
    · have hc' := Bool.eq_false_iff.mpr hc
      simp only [sync_notifications, hc', Bool.false_eq_true, if_false]
      exact ⟨r, hr, rfl, rfl⟩

/-- Witness for C2: user 2 posting a subject payload whose id s1 belongs to
user 1 fails with the store error and changes nothing, and the same for a
one-element notification sync. -/
theorem upsert_never_reassigns_owner_witness :
    create_or_update_subject dbForeignSubject 2 subjectPayloadS1
        = (dbForeignSubject, Except.error internalServerError) ∧
    sync_notifications dbForeignNotif 2 [notifPayloadN1]
        = (dbForeignNotif, Except.error internalServerError) :=
  ⟨upsert_never_reassigns_owner.1 dbForeignSubject 2 subjectPayloadS1 (by decide)
     ⟨{ id := "s1", goal_id := "g1", name := "Math", color := "red",
        tracking_mode := "SCHEDULE", schedule := none,
        total_study_hours := 0, total_target_hours := none, owner_id := 1 },
      by decide, by decide, by decide⟩,
   upsert_never_reassigns_owner.2.1 dbForeignNotif 2 [notifPayloadN1] notifPayloadN1
     (by decide) (by decide)
     ⟨{ id := "n1", subject_id := "s1", subject_name := "Math", type := "STUDY_TIME",
        scheduled_hours := 2, scheduled_time := "10:00", scheduled_date := "2025-01-01",
        status := "PENDING", read := false, timestamp := 100, owner_id := 1 },
      by decide, by decide, by decide⟩⟩

theorem contains_of_mem_str {l : List String} {a : String} (h : a ∈ l) :
    l.contains a = true := by
  rw [List.contains_eq_any_beq]
  exact List.any_eq_true.mpr ⟨a, h, by simp⟩

theorem find?_updateFirst_self {α : Type} {p : α → Bool} {x : α} (hx : p x = true) :
    ∀ {l : List α}, (l.find? p).isSome = true →
      (updateFirst p x l).find? p = some x := by
  intro l
  induction l with
  | nil => intro h; simp [List.find?_nil] at h
  | cons a as ih =>
    intro h
    by_cases hpa : p a = true
    · simp [updateFirst, hpa, List.find?_cons_of_pos, hx]
    · have hpa' : p a = false := Bool.eq_false_iff.mpr hpa
      rw [List.find?_cons_of_neg _ (by simp [hpa'])] at h
      simp only [updateFirst, hpa', Bool.false_eq_true, if_false]
      rw [List.find?_cons_of_neg _ (by simp [hpa'])]
      exact ih h

theorem updateFirst_idem {α : Type} {p : α → Bool} {x : α} (hx : p x = true)
    (l : List α) : updateFirst p x (updateFirst p x l) = updateFirst p x l := by
  induction l with
  | nil => rfl
  | cons a as ih =>
    by_cases hpa : p a = true
    · simp [updateFirst, hpa, hx]
    · have hpa' : p a = false := Bool.eq_false_iff.mpr hpa
      simp [updateFirst, hpa', ih]

theorem updateFirst_append_singleton {α : Type} {p : α → Bool} {x : α} (hx : p x = true)
    {l : List α} (hl : l.find? p = none) :
    updateFirst p x (l ++ [x]) = l ++ [x] := by
  induction l with
  | nil => simp [updateFirst, hx]
  | cons a as ih =>
    have hpa : p a = false := by
      have := List.find?_eq_none.mp hl a (List.mem_cons_self a as)
      exact Bool.eq_false_iff.mpr this
    have htl : as.find? p = none := by
      rw [List.find?_eq_none]
      exact fun b hb => List.find?_eq_none.mp hl b (List.mem_cons_of_mem a hb)
    simp only [List.cons_append, updateFirst, hpa, Bool.false_eq_true, if_false]
    show a :: updateFirst p x (as ++ [x]) = a :: (as ++ [x])
    rw [ih htl]

theorem find?_append_singleton {α : Type} {p : α → Bool} {x : α} (hx : p x = true)
    {l : List α} (hl : l.find? p = none) :
    (l ++ [x]).find? p = some x := by
  induction l with
  | nil => simp [List.find?_cons_of_pos, hx]
  | cons a as ih =>
    have hpa : p a = false := by
      have := List.find?_eq_none.mp hl a (List.mem_cons_self a as)
      exact Bool.eq_false_iff.mpr this
    have htl : as.find? p = none := by
      rw [List.find?_eq_none]
      exact fun b hb => List.find?_eq_none.mp hl b (List.mem_cons_of_mem a hb)
    rw [List.cons_append, List.find?_cons_of_neg _ (by simp [hpa])]
    exact ih htl

/-- In a table whose ids carry no duplicate and which holds a `p`-matching
row, overwriting the first `p`-matching row by `x` leaves `x` as the only
`p`-matching row, provided `p` pins the id down. -/
theorem filter_updateFirst_single {α : Type} (f : α → String) {p : α → Bool} {x : α}
    (hx : p x = true) (hpf : ∀ a, p a = true → f a = f x) :
    ∀ {l : List α}, nodupBool (l.map f) = true → l.any p = true →
      (updateFirst p x l).filter p = [x] := by
  intro l
  induction l with
  | nil => intro _ hfound; simp at hfound
  | cons a as ih =>
    intro hnd hfound
    simp only [List.map_cons, nodupBool, Bool.and_eq_true, Bool.not_eq_true'] at hnd
    by_cases hpa : p a = true
    · simp only [updateFirst, hpa, if_true]
      rw [List.filter_cons_of_pos hx]
      have hnil : as.filter p = [] := by
        rw [List.filter_eq_nil_iff]
        intro b hb hpb
        have hfb : f b = f a := (hpf b hpb).trans (hpf a hpa).symm
        have : f a ∈ as.map f := by
          rw [← hfb]; exact List.mem_map_of_mem f hb
        rw [contains_of_mem_str this] at hnd
        exact absurd hnd.1 (by simp)
      rw [hnil]
    · have hpa' : p a = false := Bool.eq_false_iff.mpr hpa
      simp only [updateFirst, hpa', Bool.false_eq_true, if_false]
      rw [List.filter_cons_of_neg (by simp [hpa'])]
      apply ih hnd.2
      simp only [List.any_cons, hpa', Bool.false_or] at hfound
      exact hfound

/-- Applying the subject upsert twice with the same caller and payload gives
the very same state and response as applying it once. -/
theorem upsert_subject_apply_twice (db : DB) (uid : Nat) (s : SubjectCreate) :
    create_or_update_subject (create_or_update_subject db uid s).1 uid s
      = create_or_update_subject db uid s := by
  have hx : (fun r : SubjectRow => r.id == s.id && r.owner_id == uid)
      (rowOfSubjectCreate uid s) = true := by
    simp [rowOfSubjectCreate]
  cases hf : db.subjects.find? (fun r => r.id == s.id && r.owner_id == uid) with
  | some r0 =>
    have hf2 : (updateFirst (fun r : SubjectRow => r.id == s.id && r.owner_id == uid)
        (rowOfSubjectCreate uid s) db.subjects).find?
          (fun r => r.id == s.id && r.owner_id == uid) = some (rowOfSubjectCreate uid s) :=
      @find?_updateFirst_self SubjectRow (fun r => r.id == s.id && r.owner_id == uid)
        (rowOfSubjectCreate uid s) hx db.subjects (by rw [hf]; rfl)
    simp only [create_or_update_subject, hf]
    simp only [create_or_update_subject, hf2]
    rw [@updateFirst_idem SubjectRow (fun r => r.id == s.id && r.owner_id == uid)
      (rowOfSubjectCreate uid s) hx db.subjects]
  | none =>
    by_cases hall : db.subjects.all (fun r => !(r.id == s.id)) = true
    · have hf2 : (db.subjects ++ [rowOfSubjectCreate uid s]).find?
          (fun r => r.id == s.id && r.owner_id == uid) = some (rowOfSubjectCreate uid s) :=
        @find?_append_singleton SubjectRow (fun r => r.id == s.id && r.owner_id == uid)
          (rowOfSubjectCreate uid s) hx db.subjects hf
      simp only [create_or_update_subject, hf, hall, if_true]
      simp only [create_or_update_subject, hf2]
      rw [@updateFirst_append_singleton SubjectRow
        (fun r => r.id == s.id && r.owner_id == uid) (rowOfSubjectCreate uid s) hx
        db.subjects hf]
    · have hall' := Bool.eq_false_iff.mpr hall
      simp only [create_or_update_subject, hf, hall', Bool.false_eq_true, if_false]

/-- C8 amended: the subject upsert is idempotent as a state transformer —
applying the same (caller, payload) twice always yields exactly the state
and response of applying it once — and, provided no existing row with the
payload id belongs to a different owner (otherwise both applications fail
with the store error and leave zero rows with that id and owner, see the
counterexample), applying it twice leaves exactly one row with that
(id, owner), holding the payload's field values. -/
theorem upsert_subject_idempotent :
    (∀ (db : DB) (uid : Nat) (s : SubjectCreate),
      create_or_update_subject (create_or_update_subject db uid s).1 uid s
        = create_or_update_subject db uid s) ∧
    (∀ (db : DB) (uid : Nat) (s : SubjectCreate),
      nodupBool (db.subjects.map (fun r => r.id)) = true →
      (∀ r ∈ db.subjects, r.id = s.id → r.owner_id = uid) →
      ((create_or_update_subject (create_or_update_subject db uid s).1 uid s).1.subjects.filter
          (fun r => r.id == s.id && r.owner_id == uid)) = [rowOfSubjectCreate uid s]) := by
  have hx : ∀ (uid : Nat) (s : SubjectCreate),
      (fun r : SubjectRow => r.id == s.id && r.owner_id == uid)
        (rowOfSubjectCreate uid s) = true := by
    intro uid s; simp [rowOfSubjectCreate]
  refine ⟨upsert_subject_apply_twice, ?_⟩
  intro db uid s hnd hown
  rw [upsert_subject_apply_twice]
  cases hf : db.subjects.find? (fun r => r.id == s.id && r.owner_id == uid) with
  | some r0 =>
    simp only [create_or_update_subject, hf]
    apply @filter_updateFirst_single SubjectRow (fun r => r.id)
      (fun r => r.id == s.id && r.owner_id == uid) (rowOfSubjectCreate uid s)
      (hx uid s) ?_ db.subjects hnd ?_
    · intro a ha
      simp only [Bool.and_eq_true, beq_iff_eq] at ha
      show a.id = (rowOfSubjectCreate uid s).id
      rw [ha.1]; rfl
    · obtain ⟨hmem, hp⟩ := And.intro (List.mem_of_find?_eq_some hf) (List.find?_some hf)
      exact List.any_eq_true.mpr ⟨r0, hmem, hp⟩
  | none =>
    have hall : db.subjects.all (fun r => !(r.id == s.id)) = true := by
      rw [List.all_eq_true]
      intro r hr
      simp only [Bool.not_eq_true', beq_eq_false_iff_ne, ne_eq]
      intro hid
      have hpr : (r.id == s.id && r.owner_id == uid) = true := by
        simp [hid, hown r hr hid]
      exact absurd hpr (by simpa using List.find?_eq_none.mp hf r hr)
    simp only [create_or_update_subject, hf, hall, if_true]
    rw [List.filter_append]
    have hnil : db.subjects.filter (fun r => r.id == s.id && r.owner_id == uid) = [] := by
      rw [List.filter_eq_nil_iff]
      intro b hb hpb
      exact absurd hpb (by simpa using List.find?_eq_none.mp hf b hb)
    have hfx : List.filter (fun r : SubjectRow => r.id == s.id && r.owner_id == uid)
        [rowOfSubjectCreate uid s] = [rowOfSubjectCreate uid s] := by
      simp [List.filter, rowOfSubjectCreate]
    rw [hnil, hfx]
    rfl

/-- Witness for C8: user 1 upserting its own subject s1 twice is idempotent
and leaves exactly one row with (s1, owner 1) holding the final fields. -/
theorem upsert_subject_idempotent_witness :
    (create_or_update_subject (create_or_update_subject dbGoalCascade 1 subjectPayloadOwn).1
        1 subjectPayloadOwn = create_or_update_subject dbGoalCascade 1 subjectPayloadOwn) ∧
    ((create_or_update_subject (create_or_update_subject dbGoalCascade 1 subjectPayloadOwn).1
        1 subjectPayloadOwn).1.subjects.filter
          (fun r => r.id == subjectPayloadOwn.id && r.owner_id == 1))
        = [rowOfSubjectCreate 1 subjectPayloadOwn] :=
  ⟨upsert_subject_idempotent.1 dbGoalCascade 1 subjectPayloadOwn,
   upsert_subject_idempotent.2 dbGoalCascade 1 subjectPayloadOwn (by decide) (by decide)⟩

/-- C1: per-user isolation is broken by DELETE /goals.  In `dbCrossOwner`,
user 2 owns goal g1 and user 1 owns subject sA whose goal_id is g1.  User 2
deleting its own goal g1 succeeds and also deletes user 1's subject — the
subjects table ends empty although its only row was owned by user 1 —
because the bulk subject delete at src/main.py line 104 filters only by
goal_id, never by owner. -/
theorem delete_goal_removes_other_owners_subject :
    (delete_goal dbCrossOwner 2 "g1").2 = Except.ok "Goal deleted" ∧
    dbCrossOwner.subjects.map (fun s => s.owner_id) = [1] ∧
    (delete_goal dbCrossOwner 2 "g1").1.subjects = [] := by decide

/-- C3: DELETE /goals does not cascade to chapters.  In `dbGoalCascade`,
deleting goal g1 removes the goal row and subject s1, but chapter c1 of the
removed subject stays in the chapters table: the bulk subject delete at
src/main.py line 104 bypasses the ORM cascade declared on Subject.chapters
(src/models.py line 38), and no database-level ON DELETE action exists. -/
theorem delete_goal_leaves_orphan_chapter :
    (delete_goal dbGoalCascade 1 "g1").2 = Except.ok "Goal deleted" ∧
    (delete_goal dbGoalCascade 1 "g1").1.goals = [] ∧
    (delete_goal dbGoalCascade 1 "g1").1.subjects = [] ∧
    (delete_goal dbGoalCascade 1 "g1").1.chapters = dbGoalCascade.chapters ∧
    dbGoalCascade.chapters ≠ [] := by decide

/-- C7: POST /notifications/sync commits the synced row but does not return
the notification list.  For a caller with zero prior notifications syncing
the single payload n1, the row is committed with the caller as owner, but
the response is a 500: read_notifications (src/main.py lines 166-171) builds
each schemas.Notification without the required owner_id field, so pydantic
raises while the spec scenario requires the full list [n1] in the body. -/
theorem sync_notifications_response_raises :
    (sync_notifications dbEmptyNotifs 1 [notifInputOne]).1.notifications
        = [rowOfNotificationCreate 1 notifInputOne] ∧
    (sync_notifications dbEmptyNotifs 1 [notifInputOne]).2
        = Except.error internalServerError := by decide

/-- C4 counterexample: POST /goals is not an upsert.  With goal g1 already
owned by caller 1, posting a payload with id g1 and changed mutable fields
fails with a 500 (the unconditional INSERT at src/main.py lines 91-93
violates the primary key) and leaves the old row untouched, instead of
overwriting the row in place and returning it. -/
theorem create_goal_does_not_upsert :
    (create_goal dbGoalExisting 1 goalPayloadNew).2 = Except.error internalServerError ∧
    (create_goal dbGoalExisting 1 goalPayloadNew).1 = dbGoalExisting ∧
    ¬ ((create_goal dbGoalExisting 1 goalPayloadNew).1.goals
          = [{ id := "g1", title := "New title", type := "EXAM", details := "e", owner_id := 1 }] ∧
       (create_goal dbGoalExisting 1 goalPayloadNew).2
          = Except.ok { id := "g1", title := "New title", type := "EXAM", details := "e", owner_id := 1 }) := by
  decide

/-- C8 counterexample: upsert applied twice does not always leave exactly one
row.  With subject s1 owned by user 1, user 2 posting the same payload with
id s1 twice fails both times (the INSERT violates the primary key held by
user 1's row) and leaves zero rows with id s1 and owner 2 — not exactly
one. -/
theorem upsert_twice_cross_owner_zero_rows :
    (create_or_update_subject dbForeignSubject 2 subjectPayloadS1).2
        = Except.error internalServerError ∧
    ((create_or_update_subject
        (create_or_update_subject dbForeignSubject 2 subjectPayloadS1).1
        2 subjectPayloadS1).1.subjects.filter
          (fun r => r.id == "s1" && r.owner_id == 2)) = [] ∧
    ¬ (((create_or_update_subject
          (create_or_update_subject dbForeignSubject 2 subjectPayloadS1).1
          2 subjectPayloadS1).1.subjects.filter
            (fun r => r.id == "s1" && r.owner_id == 2)).length = 1) := by decide

end StudyTracker
